import Mathlib

/-!
Shallow embedding of the whisper-uni-api repository: the upload/validation
handler and status handler (src/api/src/api/handlers.py with config.py and
storage.py), the worker task and engine factory (src/worker/tasks.py), the
two production engine adapters (src/worker/runners/whisperx.py and
timestamped.py over runners/base.py), and the test adapter
(src/worker/tests/mock/runner.py).

Python strings are Lean String, floats are embedded as rationals, dicts
with fixed keys become structures, exceptions become Except, and the
effectful collaborators (filesystem, subprocess, queue) are passed in as
explicit parameters so the pure control flow of each function is embedded
exactly.
-/

namespace WhisperUniApi

/-! ## String helpers embedding the Python primitives used by the code -/

/-- Embeds the suffix selection of Python "s.split(sep)[-1]": the characters
after the last occurrence of the separator, or the whole list when the
separator does not occur. -/
def afterLast (sep : Char) : List Char → List Char
  | [] => []
  | c :: cs =>
    if cs.contains sep then afterLast sep cs
    else if c = sep then cs
    else c :: cs

/-- The characters before the last occurrence of a dot (Python name[:i] with
i = name.rfind(".")); empty when no dot occurs. -/
def beforeLastDot : List Char → List Char
  | [] => []
  | c :: cs => if cs.contains '.' then c :: beforeLastDot cs else []

/-- Embeds Python str.lower for the ASCII range used by file extensions. -/
def pyLower (s : String) : String :=
  String.mk (s.toList.map Char.toLower)

/-- Embeds Python str.strip: drop whitespace from both ends. -/
def pyStrip (s : String) : String :=
  String.mk (((s.toList.dropWhile Char.isWhitespace).reverse.dropWhile
    Char.isWhitespace).reverse)

/-- Embeds Python " sep ".join over a list of strings. -/
def joinWith (sep : String) : List String → String
  | [] => ""
  | [s] => s
  | s :: rest => s ++ sep ++ joinWith sep rest

/-- Embeds pathlib Path(p).name: the final path component. -/
def pathName (p : String) : String :=
  String.mk (afterLast '/' p.toList)

/-- Embeds pathlib PurePath.stem on a final component: the name without its
last suffix, where a suffix needs a dot that is neither the first nor the
last character (CPython: i = name.rfind("."); name[:i] if 0 < i < len-1). -/
def pyStemName (name : String) : String :=
  let cs := name.toList
  if cs.contains '.' then
    let pre := beforeLastDot cs
    let post := afterLast '.' cs
    if pre ≠ [] ∧ post ≠ [] then String.mk pre else name
  else name

/-- Path(p).stem: stem of the final component. -/
def pyStem (p : String) : String := pyStemName (pathName p)

/-! ## Unified result schema (src/worker/runners/base.py) -/

/-- Word token of base.py: word text with start and end times. The source
field named end is called stop here because end is a Lean keyword. -/
structure Word where
  word : String
  start : ℚ
  stop : ℚ
deriving DecidableEq

/-- TranscriptionSegment of base.py: id, start, end, text, words. -/
structure TranscriptionSegment where
  id : Int
  start : ℚ
  stop : ℚ
  text : String
  words : List Word
deriving DecidableEq

/-- TranscriptionResult of base.py: text, segments, language, engine. -/
structure TranscriptionResult where
  text : String
  segments : List TranscriptionSegment
  language : String
  engine : String
deriving DecidableEq

/-! ## API configuration (src/api/src/api/config.py) -/

/-- Config.ALLOWED_FORMATS. -/
def ALLOWED_FORMATS : List String := ["mp3", "wav", "m4a", "flac"]

/-- Config.MAX_FILE_SIZE default value (500 MB); the handler reads the
configured value, which the embedding passes as a parameter. -/
def MAX_FILE_SIZE_DEFAULT : Nat := 500 * 1024 * 1024

/-- Config.UPLOAD_DIR default value. -/
def UPLOAD_DIR : String := "/tmp/uploads"

/-! ## API handlers (src/api/src/api/handlers.py, storage.py) -/

/-- An HTTPException value: status code and detail string. -/
structure HTTPError where
  status : Nat
  detail : String
deriving DecidableEq

/-- The file-extension computation of upload_and_transcribe:
filename.split(".")[-1].lower() if "." in filename else "". -/
def fileExt (filename : String) : String :=
  if filename.toList.contains '.' then
    pyLower (String.mk (afterLast '.' filename.toList))
  else ""

/-- save_uploaded_file of storage.py: the artifact is written at
UPLOAD_DIR/{job_id}.{ext} with ext = filename.split(".")[-1].lower(). -/
def save_uploaded_file_path (filename job_id : String) : String :=
  UPLOAD_DIR ++ "/" ++ job_id ++ "." ++
    pyLower (String.mk (afterLast '.' filename.toList))

/-- The side effects upload_and_transcribe can perform after validation:
persisting the artifact and enqueueing the unit of work with its bound
arguments. -/
inductive Effect where
  | save (path : String)
  | enqueue (job_id : String) (file_path : String) (engine : String)
      (language : Option String) (model : String)
deriving DecidableEq

/-- Response model TranscribeResponse. -/
structure TranscribeResponse where
  job_id : String
  status : String
deriving DecidableEq

/-- upload_and_transcribe of handlers.py. The upload content is abstracted
by its byte size, the configured Config.MAX_FILE_SIZE is the maxFileSize
parameter, and the generated uuid is the job_id parameter. Returns the
HTTP outcome together with the ordered list of side effects performed. -/
def upload_and_transcribe (filename engine : String) (language : Option String)
    (model : Option String) (contentSize maxFileSize : Nat) (job_id : String) :
    Except HTTPError TranscribeResponse × List Effect :=
  let file_ext := fileExt filename
  if file_ext ∉ ALLOWED_FORMATS then
    (Except.error ⟨400, "Unsupported format. Allowed: mp3, wav, m4a, flac"⟩, [])
  else if engine ∉ (["whisperx", "timestamped"] : List String) then
    (Except.error ⟨422, "Invalid engine. Must be whisperx or timestamped"⟩, [])
  else if contentSize > maxFileSize then
    (Except.error ⟨400, "File too large"⟩, [])
  else
    let file_path := save_uploaded_file_path filename job_id
    (Except.ok ⟨job_id, "queued"⟩,
      [Effect.save file_path,
       Effect.enqueue job_id file_path engine language (model.getD "base")])

/-- The queue record the status handler reads: job.get_status(), job.result,
job.exc_info. -/
structure JobRecord where
  status : String
  result : Option TranscriptionResult
  exc_info : Option String

/-- Response model JobStatus. -/
structure JobStatus where
  job_id : String
  status : String
  result : Option TranscriptionResult
  error : Option String

/-- The body of the try block of get_job_status: fetch the job (rq
fetch_job returns None for an unknown id), raise HTTPException(404) when
absent, otherwise populate result on finished and error on failed. -/
def get_job_status_body (fetch : String → Option JobRecord) (job_id : String) :
    Except HTTPError JobStatus :=
  match fetch job_id with
  | none => Except.error ⟨404, "Job not found"⟩
  | some job =>
    let result := if job.status = "finished" then job.result else none
    let error :=
      if job.status = "failed" then some (job.exc_info.getD "Unknown error")
      else none
    Except.ok ⟨job_id, job.status, result, error⟩

/-- str(e) for an HTTPException e: f-string of status code and detail. -/
def httpErrorStr (e : HTTPError) : String :=
  Nat.repr e.status ++ ": " ++ e.detail

/-- get_job_status of handlers.py: the whole body runs inside a try whose
except Exception clause re-raises any exception, the HTTPException(404)
included, as HTTPException(500, "Error fetching job status: " + str(e)). -/
def get_job_status (fetch : String → Option JobRecord) (job_id : String) :
    Except HTTPError JobStatus :=
  match get_job_status_body fetch job_id with
  | Except.ok r => Except.ok r
  | Except.error e =>
      Except.error ⟨500, "Error fetching job status: " ++ httpErrorStr e⟩

/-! ## Runner state and factory (src/worker/tasks.py, runners/base.py) -/

/-- The concrete runner class selected by the factory. -/
inductive EngineKind where
  | whisperx
  | timestamped
  | mock
deriving DecidableEq

/-- The state a BaseRunner holds after construction: the model size and the
compute device (base.py stores exactly these two attributes). -/
structure Runner where
  kind : EngineKind
  model : String
  device : String
deriving DecidableEq

/-- get_runner of tasks.py: whisperx and timestamped are built with device
cuda; any other name raises ValueError("Unknown engine: ..."). -/
def get_runner (engine model : String) : Except String Runner :=
  if engine = "whisperx" then Except.ok ⟨EngineKind.whisperx, model, "cuda"⟩
  else if engine = "timestamped" then
    Except.ok ⟨EngineKind.timestamped, model, "cuda"⟩
  else Except.error ("Unknown engine: " ++ engine)

/-- MockWhisperRunner.__init__ of tests/mock/runner.py: forwards the model
but overrides the device argument, always passing cpu to the base class. -/
def MockWhisperRunner.init (model _device : String) : Runner :=
  ⟨EngineKind.mock, model, "cpu"⟩

/-! ## Raw engine JSON output, as read from the output file -/

/-- A word object of the engine JSON: every field may be absent. -/
structure RawWord where
  word : Option String
  start : Option ℚ
  stop : Option ℚ
deriving DecidableEq

/-- A segment object of the engine JSON; the words key may be absent. -/
structure RawSegment where
  id : Option Int
  start : Option ℚ
  stop : Option ℚ
  text : Option String
  words : Option (List RawWord)
deriving DecidableEq

/-- The top-level engine JSON object: text, segments, language, each
possibly absent. -/
structure RawOutput where
  text : Option String
  segments : Option (List RawSegment)
  language : Option String
deriving DecidableEq

/-- Normalization of one raw word, shared verbatim by both adapters:
word defaults to the empty string, start and end default to 0. -/
def normalizeWord (w : RawWord) : Word :=
  ⟨w.word.getD "", w.start.getD 0, w.stop.getD 0⟩

/-- WhisperXRunner._normalize, per segment: seg.get("words", []) is mapped
through word normalization; id defaults to 0, start and end to 0.0, the
text is stripped. -/
def WhisperXRunner.normalizeSegment (seg : RawSegment) : TranscriptionSegment :=
  ⟨seg.id.getD 0, seg.start.getD 0, seg.stop.getD 0,
    pyStrip (seg.text.getD ""), (seg.words.getD []).map normalizeWord⟩

/-- WhisperXRunner._normalize: segments are normalized in order, the full
text is the stripped top-level text, or the segment texts joined with
single spaces when that strip is empty; language defaults to unknown. -/
def WhisperXRunner.normalize (output : RawOutput) : TranscriptionResult :=
  let segments := (output.segments.getD []).map WhisperXRunner.normalizeSegment
  let stripped := pyStrip (output.text.getD "")
  let full_text :=
    if stripped = "" then joinWith " " (segments.map TranscriptionSegment.text)
    else stripped
  ⟨full_text, segments, output.language.getD "unknown", "whisperx"⟩

/-- TimestampedRunner._normalize, per segment: words are extracted only when
the words key is present in the segment, otherwise the empty list. -/
def TimestampedRunner.normalizeSegment (seg : RawSegment) :
    TranscriptionSegment :=
  ⟨seg.id.getD 0, seg.start.getD 0, seg.stop.getD 0,
    pyStrip (seg.text.getD ""),
    match seg.words with
    | none => []
    | some ws => ws.map normalizeWord⟩

/-- TimestampedRunner._normalize: same text and language reconstruction as
the WhisperX variant, with engine timestamped. -/
def TimestampedRunner.normalize (output : RawOutput) : TranscriptionResult :=
  let segments := (output.segments.getD []).map TimestampedRunner.normalizeSegment
  let stripped := pyStrip (output.text.getD "")
  let full_text :=
    if stripped = "" then joinWith " " (segments.map TranscriptionSegment.text)
    else stripped
  ⟨full_text, segments, output.language.getD "unknown", "timestamped"⟩

/-! ## Adapter execution (runners/whisperx.py, runners/timestamped.py) -/

/-- The filesystem as the adapters see it: the byte size of a path when it
exists, and the parsed JSON content of a readable output file. -/
structure FileSys where
  size : String → Option Nat
  jsonAt : String → Option RawOutput

/-- BaseRunner._validate_audio: os.path.exists and os.path.getsize > 0. -/
def validate_audio (fs : FileSys) (audio_path : String) : Bool :=
  match fs.size audio_path with
  | none => false
  | some n => decide (n > 0)

/-- Outcome of subprocess.run with a timeout: either TimeoutExpired or a
completed process with return code, stdout and stderr. -/
inductive ProcResult where
  | timeout
  | completed (returncode : Int) (stdout stderr : String)

/-- The subprocess collaborator: the outcome of running a command line with
a given timeout in seconds. -/
def Subproc := List String → Nat → ProcResult

/-- The error kinds an adapter run raises, by raise site: FileNotFoundError
on invalid audio, TimeoutError, RuntimeError at non-zero exit (carrying the
message built from stderr), RuntimeError when the output file is absent. -/
inductive RunError where
  | invalidInput (msg : String)
  | timeoutErr (msg : String)
  | executionErr (msg : String)
  | outputMissing (msg : String)
deriving DecidableEq

/-- The command line WhisperXRunner.run builds. -/
def whisperxCmd (r : Runner) (audio_path : String) (language : Option String)
    (diarize : Bool) : List String :=
  ["whisperx", audio_path, "--model", r.model, "--device", r.device,
   "--output_format", "json", "--output_dir", "/tmp/whisperx_output",
   "--align_model", "wav2vec2_align_multilingual_v1",
   "--compute_type", if r.device = "cuda" then "float16" else "int8"]
  ++ (match language with | some l => ["--language", l] | none => [])
  ++ (if diarize then ["--diarize_model", "pyannote/speaker-diarization-3.1"]
      else [])

/-- The conventional output file WhisperXRunner.run reads:
output_dir / (Path(audio_path).stem + ".json"). -/
def whisperxOutputFile (audio_path : String) : String :=
  "/tmp/whisperx_output/" ++ pyStem audio_path ++ ".json"

/-- WhisperXRunner.run: validate the audio, invoke the external command with
a 3600 second timeout, raise on timeout or non-zero exit (including stderr
in the message), locate the conventional output file, raise when it is
absent, else parse and normalize it. -/
def WhisperXRunner.run (r : Runner) (fs : FileSys) (proc : Subproc)
    (audio_path : String) (language : Option String) (diarize : Bool) :
    Except RunError TranscriptionResult :=
  if ¬ validate_audio fs audio_path then
    Except.error (RunError.invalidInput ("Invalid audio: " ++ audio_path))
  else
    match proc (whisperxCmd r audio_path language diarize) 3600 with
    | ProcResult.timeout =>
        Except.error (RunError.timeoutErr "WhisperX processing exceeded 1 hour")
    | ProcResult.completed returncode _ stderr =>
      if returncode ≠ 0 then
        Except.error (RunError.executionErr ("WhisperX error: " ++ stderr))
      else
        let output_file := whisperxOutputFile audio_path
        match fs.jsonAt output_file with
        | none =>
            Except.error (RunError.outputMissing
              ("Output file not generated: " ++ output_file))
        | some raw => Except.ok (WhisperXRunner.normalize raw)

/-- The command line TimestampedRunner.run builds. -/
def timestampedCmd (r : Runner) (audio_path : String)
    (language : Option String) (vad_filter : Bool) : List String :=
  ["whisper-timestamped", audio_path, "--model", r.model, "--device",
   r.device, "--output_format", "json", "--output_dir",
   "/tmp/timestamped_output"]
  ++ (match language with | some l => ["--language", l] | none => [])
  ++ (if ¬ vad_filter then ["--no_vad"] else [])

/-- The conventional output file TimestampedRunner.run reads. -/
def timestampedOutputFile (audio_path : String) : String :=
  "/tmp/timestamped_output/" ++ pyStem audio_path ++ ".json"

/-- TimestampedRunner.run: same control flow as the WhisperX variant with
its own command, scratch directory and messages. -/
def TimestampedRunner.run (r : Runner) (fs : FileSys) (proc : Subproc)
    (audio_path : String) (language : Option String) (vad_filter : Bool) :
    Except RunError TranscriptionResult :=
  if ¬ validate_audio fs audio_path then
    Except.error (RunError.invalidInput ("Invalid audio: " ++ audio_path))
  else
    match proc (timestampedCmd r audio_path language vad_filter) 3600 with
    | ProcResult.timeout =>
        Except.error (RunError.timeoutErr "Processing exceeded 1 hour")
    | ProcResult.completed returncode _ stderr =>
      if returncode ≠ 0 then
        Except.error (RunError.executionErr
          ("whisper-timestamped error: " ++ stderr))
      else
        let output_file := timestampedOutputFile audio_path
        match fs.jsonAt output_file with
        | none =>
            Except.error (RunError.outputMissing
              ("Output file not generated: " ++ output_file))
        | some raw => Except.ok (TimestampedRunner.normalize raw)

/-! ## Test adapter (src/worker/tests/mock/runner.py) -/

/-- MockWhisperRunner.run: validate the audio, then return the fixed
two-segment result synthesized from the filename stem, with no subprocess
collaborator at all. -/
def MockWhisperRunner.run (fs : FileSys) (audio_path : String)
    (language : Option String) : Except RunError TranscriptionResult :=
  if ¬ validate_audio fs audio_path then
    Except.error (RunError.invalidInput ("Invalid audio: " ++ audio_path))
  else
    let audio_name := pyStem audio_path
    let detected_language := language.getD "en"
    Except.ok
      ⟨"This is a mock transcription from the file " ++ audio_name,
       [⟨0, 0, 2.5, "This is a mock transcription",
          [⟨"This", 0, 0.4⟩, ⟨"is", 0.5, 0.7⟩, ⟨"a", 0.8, 0.9⟩,
           ⟨"mock", 1.0, 1.3⟩, ⟨"transcription", 1.4, 2.5⟩]⟩,
        ⟨1, 2.5, 5.0, "from the file " ++ audio_name,
          [⟨"from", 2.5, 2.8⟩, ⟨"the", 2.9, 3.0⟩, ⟨"file", 3.1, 3.4⟩,
           ⟨audio_name, 3.5, 4.5⟩]⟩],
       detected_language, "mock"⟩

/-! ## Worker task (src/worker/tasks.py) -/

/-- The environment transcribe runs in: whether the artifact exists, the
outcome of the selected runner invocation (abstracting runner.run with its
engine-specific collaborators), and whether os.remove succeeds. -/
structure TranscribeEnv where
  audioExists : Bool
  runnerRun : Runner → Except String TranscriptionResult
  removeOk : Bool

/-- The serialization step of transcribe: the result dict is rebuilt key by
key from the TranscriptionResult. -/
def result_dict (result : TranscriptionResult) : TranscriptionResult :=
  ⟨result.text,
   result.segments.map (fun seg =>
     ⟨seg.id, seg.start, seg.stop, seg.text, seg.words⟩),
   result.language, result.engine⟩

/-- transcribe of tasks.py. Every exception of the try body is re-raised as
Exception("Transcription failed: " + str(e)). The os.remove cleanup sits
inside the try, after the successful run and conversion; its own failure is
caught separately and only logged. The Bool of the pair records whether the
deletion was attempted. -/
def transcribe (env : TranscribeEnv) (audio_path engine : String)
    (model : String) : Except String TranscriptionResult × Bool :=
  if ¬ env.audioExists then
    (Except.error
      ("Transcription failed: Audio file not found: " ++ audio_path), false)
  else
    match get_runner engine model with
    | Except.error msg => (Except.error ("Transcription failed: " ++ msg), false)
    | Except.ok runner =>
      match env.runnerRun runner with
      | Except.error msg =>
          (Except.error ("Transcription failed: " ++ msg), false)
      | Except.ok result => (Except.ok (result_dict result), true)

/-! ## Theorems -/

/-- C1: the spec says a status query for a job identifier unknown to the
queue fails with NotFoundError (HTTP 404), and the repository's own test
test_get_job_status_not_found asserts exactly that. The code instead
responds 500: the HTTPException(404) raised inside the try block is caught
by the blanket except Exception clause and re-raised as HTTPException(500).
This theorem evaluates the handler on every unknown identifier. -/
theorem get_job_status_unknown_returns_500
    (fetch : String → Option JobRecord) (job_id : String)
    (h : fetch job_id = none) :
    get_job_status fetch job_id =
      Except.error ⟨500, "Error fetching job status: 404: Job not found"⟩ := by
  unfold get_job_status get_job_status_body
  rw [h]
  rfl

/-- Witness for C1: a concrete queue with no jobs and a concrete id. -/
theorem get_job_status_unknown_returns_500_witness :
    (fun _ : String => (none : Option JobRecord)) "ghost-job" = none ∧
    get_job_status (fun _ => none) "ghost-job" =
      Except.error ⟨500, "Error fetching job status: 404: Job not found"⟩ :=
  ⟨rfl, get_job_status_unknown_returns_500 (fun _ => none) "ghost-job" rfl⟩

/-- C2 counterexample: a job that executes and fails upstream (the artifact
exists, the runner is resolved, runner.run raises) performs no deletion
attempt at all: the os.remove sits after the successful run inside the try,
so the failure path skips it. This refutes the claim that deletion is
attempted regardless of whether transcription succeeded or failed. -/
theorem transcribe_cleanup_skipped_on_failure_cex :
    transcribe ⟨true, fun _ => Except.error "engine crashed", true⟩
      "/tmp/uploads/j1.wav" "whisperx" "base" =
      (Except.error "Transcription failed: engine crashed", false) := by
  rfl

/-- C2 amended: the Job Executor attempts deletion of the input artifact
exactly when validation, engine resolution and transcription all succeed;
when the deletion is attempted, its failure is only logged: the returned
value does not depend on whether os.remove succeeds, and is the job's
result either way. -/
theorem transcribe_cleanup_spec (env : TranscribeEnv)
    (audio_path engine model : String) :
    ((transcribe env audio_path engine model).2 = true ↔
      ∃ r, (transcribe env audio_path engine model).1 = Except.ok r) ∧
    (∀ b₁ b₂ : Bool,
      transcribe ⟨env.audioExists, env.runnerRun, b₁⟩ audio_path engine model =
      transcribe ⟨env.audioExists, env.runnerRun, b₂⟩ audio_path engine model) := by
  constructor
  · unfold transcribe
    by_cases ha : env.audioExists
    · simp only [ha, not_true_eq_false, if_false]
      cases hg : get_runner engine model with
      | error msg => simp
      | ok runner =>
        cases hr : env.runnerRun runner with
        | error msg => simp [hr]
        | ok result => simp [hr]
    · simp [ha]
  · intro b₁ b₂
    rfl

/-- C3: a submission whose lowercased file extension is outside
{mp3, wav, m4a, flac}, or whose engine is neither whisperx nor timestamped,
or whose byte size exceeds the configured ceiling, fails synchronously with
a validation error, and performs no side effect: nothing is saved, nothing
is enqueued. -/
theorem upload_validation_no_side_effects
    (filename engine : String) (language : Option String)
    (model : Option String) (contentSize maxFileSize : Nat) (job_id : String)
    (h : fileExt filename ∉ ALLOWED_FORMATS ∨
         engine ∉ (["whisperx", "timestamped"] : List String) ∨
         contentSize > maxFileSize) :
    (∃ e, (upload_and_transcribe filename engine language model contentSize
        maxFileSize job_id).1 = Except.error e) ∧
    (upload_and_transcribe filename engine language model contentSize
        maxFileSize job_id).2 = [] := by
  unfold upload_and_transcribe
  by_cases h1 : fileExt filename ∈ ALLOWED_FORMATS
  · by_cases h2 : engine ∈ (["whisperx", "timestamped"] : List String)
    · have h3 : contentSize > maxFileSize := by tauto
      simp [h1, h2, h3]
    · simp [h1, h2]
  · simp [h1]

/-- Witness for C3: a txt upload with a valid engine and a tiny size is
rejected with no side effects. -/
theorem upload_validation_no_side_effects_witness :
    (fileExt "notes.txt" ∉ ALLOWED_FORMATS ∨
      "whisperx" ∉ (["whisperx", "timestamped"] : List String) ∨
      (10 : Nat) > 1000) ∧
    (∃ e, (upload_and_transcribe "notes.txt" "whisperx" none none 10 1000
        "job-1").1 = Except.error e) ∧
    (upload_and_transcribe "notes.txt" "whisperx" none none 10 1000
        "job-1").2 = [] :=
  ⟨Or.inl (by decide),
   upload_validation_no_side_effects "notes.txt" "whisperx" none none 10 1000
     "job-1" (Or.inl (by decide))⟩

/-- C5: the factory returns, for each of the two supported engine names, an
adapter carrying exactly the requested model size (with device cuda), and
fails with the ValueError that plays the role of UnsupportedEngineError for
every other name. As a pure function of its arguments it is deterministic,
and it builds a fresh adapter value on every call. -/
theorem get_runner_spec :
    (∀ model, get_runner "whisperx" model =
        Except.ok ⟨EngineKind.whisperx, model, "cuda"⟩) ∧
    (∀ model, get_runner "timestamped" model =
        Except.ok ⟨EngineKind.timestamped, model, "cuda"⟩) ∧
    (∀ engine model, engine ∉ (["whisperx", "timestamped"] : List String) →
        get_runner engine model =
          Except.error ("Unknown engine: " ++ engine)) := by
  refine ⟨fun model => rfl, fun model => rfl, fun engine model h => ?_⟩
  simp only [List.mem_cons, List.not_mem_nil, or_false, not_or] at h
  simp [get_runner, h.1, h.2]

/-- Witness for C5: an unrecognized engine name fails. -/
theorem get_runner_spec_witness :
    "faster-whisper" ∉ (["whisperx", "timestamped"] : List String) ∧
    get_runner "faster-whisper" "base" =
      Except.error ("Unknown engine: " ++ "faster-whisper") :=
  ⟨by decide, get_runner_spec.2.2 "faster-whisper" "base" (by decide)⟩

/-- C10: every adapter the production factory constructs has its compute
device fixed to cuda (the factory takes only the engine name and the model
size, so the device is not selectable from its callers), while the test
adapter's constructor overrides whatever device it is given and stores
cpu. -/
theorem device_config_spec :
    (∀ engine model, engine ∈ (["whisperx", "timestamped"] : List String) →
      ∀ r, get_runner engine model = Except.ok r → r.device = "cuda") ∧
    (∀ model device, (MockWhisperRunner.init model device).device = "cpu") := by
  constructor
  · intro engine model h r hr
    have h2 : engine = "whisperx" ∨ engine = "timestamped" := by
      simpa using h
    rcases h2 with h2 | h2 <;> subst h2
    · rw [show get_runner "whisperx" model =
          Except.ok ⟨EngineKind.whisperx, model, "cuda"⟩ from rfl] at hr
      cases hr
      rfl
    · rw [show get_runner "timestamped" model =
          Except.ok ⟨EngineKind.timestamped, model, "cuda"⟩ from rfl] at hr
      cases hr
      rfl
  · intro model device
    rfl

/-- Witness for C10: the factory at whisperx/base yields device cuda; the
test adapter built with device cuda still stores cpu. -/
theorem device_config_spec_witness :
    ("whisperx" ∈ (["whisperx", "timestamped"] : List String) ∧
      get_runner "whisperx" "base" =
        Except.ok ⟨EngineKind.whisperx, "base", "cuda"⟩ ∧
      (⟨EngineKind.whisperx, "base", "cuda"⟩ : Runner).device = "cuda") ∧
    (MockWhisperRunner.init "base" "cuda").device = "cpu" :=
  ⟨⟨by decide, rfl,
    device_config_spec.1 "whisperx" "base" (by decide) _ rfl⟩,
   device_config_spec.2 "base" "cuda"⟩

/-- A raw engine output carrying a whitespace-only top-level text next to a
segment with real content. -/
def whitespaceTextRaw : RawOutput :=
  ⟨some " ", some [⟨some 0, some 0, some 1, some "hello", none⟩], some "en"⟩

/-- C4 counterexample: the source supplies a top-level text, namely a
single space, yet the normalized full text is not that text trimmed (the
empty string) but the joined segment texts: the code branches on the trim
being empty, not on the text being supplied. -/
theorem normalize_whitespace_text_cex :
    whitespaceTextRaw.text = some " " ∧
    pyStrip " " = "" ∧
    (WhisperXRunner.normalize whitespaceTextRaw).text = "hello" ∧
    (TimestampedRunner.normalize whitespaceTextRaw).text = "hello" ∧
    (WhisperXRunner.normalize whitespaceTextRaw).text ≠ pyStrip " " := by
  refine ⟨rfl, rfl, rfl, rfl, ?_⟩
  decide

/-- The reconstruction the spec describes: the raw segment texts, each
trimmed, joined with single spaces in segment order. -/
def joinedSegmentTexts (out : RawOutput) : String :=
  joinWith " " ((out.segments.getD []).map (fun s => pyStrip (s.text.getD "")))

/-- C4 amended: for both production normalizers, the full text equals the
trimmed top-level source text whenever that trim is non-empty, and
otherwise (top-level text absent, empty, or whitespace-only) equals the
trimmed segment texts joined with single spaces in segment order; the
language equals the source language code and is unknown when the source
supplies none. -/
theorem normalize_text_language_spec (out : RawOutput) :
    (pyStrip (out.text.getD "") ≠ "" →
      (WhisperXRunner.normalize out).text = pyStrip (out.text.getD "") ∧
      (TimestampedRunner.normalize out).text = pyStrip (out.text.getD "")) ∧
    (pyStrip (out.text.getD "") = "" →
      (WhisperXRunner.normalize out).text = joinedSegmentTexts out ∧
      (TimestampedRunner.normalize out).text = joinedSegmentTexts out) ∧
    (WhisperXRunner.normalize out).language = out.language.getD "unknown" ∧
    (TimestampedRunner.normalize out).language = out.language.getD "unknown" := by
  refine ⟨fun h => ?_, fun h => ?_, rfl, rfl⟩
  · constructor <;>
      simp [WhisperXRunner.normalize, TimestampedRunner.normalize, h]
  · constructor <;>
      simp [WhisperXRunner.normalize, TimestampedRunner.normalize, h,
        joinedSegmentTexts, WhisperXRunner.normalizeSegment,
        TimestampedRunner.normalizeSegment, List.map_map, Function.comp] <;>
      rfl

/-- A raw output with no top-level text and two segments with padded
texts, exercising the reconstruction branch. -/
def whitespaceJoinRaw : RawOutput :=
  ⟨none, some [⟨some 0, some 0, some 1, some " good ", none⟩,
               ⟨some 1, some 1, some 2, some "morning", none⟩], none⟩

/-- Witness for C4: a supplied text with content is trimmed and kept; an
absent text falls back to the join of the segment texts. -/
theorem normalize_text_language_spec_witness :
    (pyStrip ((some "  hi there " : Option String).getD "") ≠ "" ∧
      (WhisperXRunner.normalize
        ⟨some "  hi there ", some [], none⟩).text = "hi there") ∧
    (pyStrip ((none : Option String).getD "") = "" ∧
      (WhisperXRunner.normalize whitespaceJoinRaw).text =
        joinedSegmentTexts whitespaceJoinRaw) :=
  ⟨⟨by decide,
    ((normalize_text_language_spec ⟨some "  hi there ", some [], none⟩).1
      (by decide)).1⟩,
   ⟨rfl,
    ((normalize_text_language_spec whitespaceJoinRaw).2.1 rfl).1⟩⟩

/-- C9: on every existing non-empty input file the test adapter succeeds
with a deterministic result: exactly two segments, engine mock, and a full
text that contains the input-filename stem literally. The adapter is a pure
function of the filesystem view, the path and the language: it consults no
subprocess collaborator at all. -/
theorem mock_runner_spec (fs : FileSys) (audio_path : String)
    (language : Option String)
    (h : validate_audio fs audio_path = true) :
    ∃ res, MockWhisperRunner.run fs audio_path language = Except.ok res ∧
      res.segments.length = 2 ∧
      res.engine = "mock" ∧
      res.text =
        "This is a mock transcription from the file " ++ pyStem audio_path ∧
      ∃ lft rgt, res.text = lft ++ pyStem audio_path ++ rgt := by
  unfold MockWhisperRunner.run
  rw [h]
  exact ⟨_, rfl, rfl, rfl, rfl,
    "This is a mock transcription from the file ", "", by simp⟩

/-- A filesystem holding one small non-empty file and no JSON output. -/
def mockSampleFs : FileSys :=
  ⟨fun p => if p = "/tmp/uploads/test.wav" then some 104 else none,
   fun _ => none⟩

/-- Witness for C9: the mock adapter on an existing 104-byte upload. -/
theorem mock_runner_spec_witness :
    validate_audio mockSampleFs "/tmp/uploads/test.wav" = true ∧
    ∃ res, MockWhisperRunner.run mockSampleFs "/tmp/uploads/test.wav" none =
        Except.ok res ∧
      res.segments.length = 2 ∧
      res.engine = "mock" ∧
      res.text = "This is a mock transcription from the file "
        ++ pyStem "/tmp/uploads/test.wav" ∧
      ∃ lft rgt, res.text =
        lft ++ pyStem "/tmp/uploads/test.wav" ++ rgt :=
  ⟨by decide,
   mock_runner_spec mockSampleFs "/tmp/uploads/test.wav" none (by decide)⟩

/-- C7: whenever the audio validates and the external process exceeds the
3600 second ceiling passed to it, each production adapter fails with the
TimeoutError of its raise site, so no partial result is ever returned. -/
theorem runner_timeout_spec (r : Runner) (fs : FileSys) (proc : Subproc)
    (audio_path : String) (language : Option String) (flag : Bool)
    (hv : validate_audio fs audio_path = true) :
    (proc (whisperxCmd r audio_path language flag) 3600 =
        ProcResult.timeout →
      WhisperXRunner.run r fs proc audio_path language flag =
        Except.error
          (RunError.timeoutErr "WhisperX processing exceeded 1 hour")) ∧
    (proc (timestampedCmd r audio_path language flag) 3600 =
        ProcResult.timeout →
      TimestampedRunner.run r fs proc audio_path language flag =
        Except.error (RunError.timeoutErr "Processing exceeded 1 hour")) := by
  constructor <;> intro hp
  · unfold WhisperXRunner.run
    rw [hv, hp]
    rfl
  · unfold TimestampedRunner.run
    rw [hv, hp]
    rfl

/-- A subprocess collaborator that always exceeds the deadline. -/
def hangingProc : Subproc := fun _ _ => ProcResult.timeout

/-- Witness for C7: a valid file and a hanging process yield the timeout
errors of both adapters. -/
theorem runner_timeout_spec_witness :
    validate_audio mockSampleFs "/tmp/uploads/test.wav" = true ∧
    hangingProc (whisperxCmd ⟨EngineKind.whisperx, "base", "cuda"⟩
      "/tmp/uploads/test.wav" none false) 3600 = ProcResult.timeout ∧
    WhisperXRunner.run ⟨EngineKind.whisperx, "base", "cuda"⟩ mockSampleFs
        hangingProc "/tmp/uploads/test.wav" none false =
      Except.error (RunError.timeoutErr "WhisperX processing exceeded 1 hour") :=
  ⟨by decide, rfl,
   (runner_timeout_spec ⟨EngineKind.whisperx, "base", "cuda"⟩ mockSampleFs
     hangingProc "/tmp/uploads/test.wav" none false (by decide)).1 rfl⟩

/-- Helper: the WhisperX adapter raises its invalid-input error exactly on
failed audio validation. -/
theorem wxInvalidIff (r : Runner) (fs : FileSys) (proc : Subproc)
    (audio_path : String) (language : Option String) (flag : Bool) :
    (∃ m, WhisperXRunner.run r fs proc audio_path language flag =
        Except.error (RunError.invalidInput m)) ↔
      validate_audio fs audio_path = false := by
  cases hv : validate_audio fs audio_path
  · simp only [iff_true]
    exact ⟨"Invalid audio: " ++ audio_path, by
      unfold WhisperXRunner.run
      rw [hv]
      rfl⟩
  · simp only [Bool.true_eq_false, iff_false, not_exists]
    intro m hm
    cases hp : proc (whisperxCmd r audio_path language flag) 3600 with
    | timeout => simp [WhisperXRunner.run, hv, hp] at hm
    | completed rc out err =>
      by_cases hrc : rc = 0
      · subst hrc
        cases hj : fs.jsonAt (whisperxOutputFile audio_path) with
        | none => simp [WhisperXRunner.run, hv, hp, hj] at hm
        | some raw => simp [WhisperXRunner.run, hv, hp, hj] at hm
      · simp [WhisperXRunner.run, hv, hp, hrc] at hm

/-- Helper: given a completed process, the WhisperX adapter raises its
execution error exactly on a non-zero exit, carrying the stderr text. -/
theorem wxExecIff (r : Runner) (fs : FileSys) (proc : Subproc)
    (audio_path : String) (language : Option String) (flag : Bool)
    (rc : Int) (out err : String)
    (hv : validate_audio fs audio_path = true)
    (hp : proc (whisperxCmd r audio_path language flag) 3600 =
      ProcResult.completed rc out err) :
    ((∃ m, WhisperXRunner.run r fs proc audio_path language flag =
        Except.error (RunError.executionErr m)) ↔ rc ≠ 0) ∧
    (rc ≠ 0 → WhisperXRunner.run r fs proc audio_path language flag =
        Except.error (RunError.executionErr ("WhisperX error: " ++ err))) := by
  by_cases hrc : rc = 0
  · subst hrc
    refine ⟨?_, by simp⟩
    simp only [ne_eq, not_true_eq_false, iff_false, not_exists]
    intro m hm
    cases hj : fs.jsonAt (whisperxOutputFile audio_path) with
    | none => simp [WhisperXRunner.run, hv, hp, hj] at hm
    | some raw => simp [WhisperXRunner.run, hv, hp, hj] at hm
  · constructor
    · simp only [ne_eq, hrc, not_false_iff, iff_true]
      exact ⟨"WhisperX error: " ++ err, by simp [WhisperXRunner.run, hv, hp, hrc]⟩
    · intro _
      simp [WhisperXRunner.run, hv, hp, hrc]

/-- Helper: given a successful exit, the WhisperX adapter raises its
output-missing error exactly when the conventional output file is absent. -/
theorem wxMissingIff (r : Runner) (fs : FileSys) (proc : Subproc)
    (audio_path : String) (language : Option String) (flag : Bool)
    (out err : String)
    (hv : validate_audio fs audio_path = true)
    (hp : proc (whisperxCmd r audio_path language flag) 3600 =
      ProcResult.completed 0 out err) :
    (WhisperXRunner.run r fs proc audio_path language flag =
        Except.error (RunError.outputMissing ("Output file not generated: "
          ++ whisperxOutputFile audio_path)) ↔
      fs.jsonAt (whisperxOutputFile audio_path) = none) := by
  cases hj : fs.jsonAt (whisperxOutputFile audio_path) with
  | none => simp [WhisperXRunner.run, hv, hp, hj]
  | some raw => simp [WhisperXRunner.run, hv, hp, hj]

/-- Helper: invalid-input characterization for the timestamped adapter. -/
theorem tsInvalidIff (r : Runner) (fs : FileSys) (proc : Subproc)
    (audio_path : String) (language : Option String) (flag : Bool) :
    (∃ m, TimestampedRunner.run r fs proc audio_path language flag =
        Except.error (RunError.invalidInput m)) ↔
      validate_audio fs audio_path = false := by
  cases hv : validate_audio fs audio_path
  · simp only [iff_true]
    exact ⟨"Invalid audio: " ++ audio_path, by
      unfold TimestampedRunner.run
      rw [hv]
      rfl⟩
  · simp only [Bool.true_eq_false, iff_false, not_exists]
    intro m hm
    cases hp : proc (timestampedCmd r audio_path language flag) 3600 with
    | timeout => simp [TimestampedRunner.run, hv, hp] at hm
    | completed rc out err =>
      by_cases hrc : rc = 0
      · subst hrc
        cases hj : fs.jsonAt (timestampedOutputFile audio_path) with
        | none => simp [TimestampedRunner.run, hv, hp, hj] at hm
        | some raw => simp [TimestampedRunner.run, hv, hp, hj] at hm
      · simp [TimestampedRunner.run, hv, hp, hrc] at hm

/-- Helper: execution-error characterization for the timestamped adapter. -/
theorem tsExecIff (r : Runner) (fs : FileSys) (proc : Subproc)
    (audio_path : String) (language : Option String) (flag : Bool)
    (rc : Int) (out err : String)
    (hv : validate_audio fs audio_path = true)
    (hp : proc (timestampedCmd r audio_path language flag) 3600 =
      ProcResult.completed rc out err) :
    ((∃ m, TimestampedRunner.run r fs proc audio_path language flag =
        Except.error (RunError.executionErr m)) ↔ rc ≠ 0) ∧
    (rc ≠ 0 → TimestampedRunner.run r fs proc audio_path language flag =
        Except.error
          (RunError.executionErr ("whisper-timestamped error: " ++ err))) := by
  by_cases hrc : rc = 0
  · subst hrc
    refine ⟨?_, by simp⟩
    simp only [ne_eq, not_true_eq_false, iff_false, not_exists]
    intro m hm
    cases hj : fs.jsonAt (timestampedOutputFile audio_path) with
    | none => simp [TimestampedRunner.run, hv, hp, hj] at hm
    | some raw => simp [TimestampedRunner.run, hv, hp, hj] at hm
  · constructor
    · simp only [ne_eq, hrc, not_false_iff, iff_true]
      exact ⟨"whisper-timestamped error: " ++ err, by
        simp [TimestampedRunner.run, hv, hp, hrc]⟩
    · intro _
      simp [TimestampedRunner.run, hv, hp, hrc]

/-- Helper: output-missing characterization for the timestamped adapter. -/
theorem tsMissingIff (r : Runner) (fs : FileSys) (proc : Subproc)
    (audio_path : String) (language : Option String) (flag : Bool)
    (out err : String)
    (hv : validate_audio fs audio_path = true)
    (hp : proc (timestampedCmd r audio_path language flag) 3600 =
      ProcResult.completed 0 out err) :
    (TimestampedRunner.run r fs proc audio_path language flag =
        Except.error (RunError.outputMissing ("Output file not generated: "
          ++ timestampedOutputFile audio_path)) ↔
      fs.jsonAt (timestampedOutputFile audio_path) = none) := by
  cases hj : fs.jsonAt (timestampedOutputFile audio_path) with
  | none => simp [TimestampedRunner.run, hv, hp, hj]
  | some raw => simp [TimestampedRunner.run, hv, hp, hj]

/-- C6: for both production adapters, run fails with the invalid-input
error exactly when audio validation fails (path absent or zero-length);
given a completed process it fails with the execution error exactly when
the exit code is non-zero, and that error carries the captured stderr; and
given a zero exit it fails with the output-missing error exactly when the
conventional output file {output_dir}/{stem}.json is absent. -/
theorem runner_error_taxonomy (r : Runner) (fs : FileSys) (proc : Subproc)
    (audio_path : String) (language : Option String) (flag : Bool) :
    ((∃ m, WhisperXRunner.run r fs proc audio_path language flag =
        Except.error (RunError.invalidInput m)) ↔
      validate_audio fs audio_path = false) ∧
    (∀ rc out err, validate_audio fs audio_path = true →
      proc (whisperxCmd r audio_path language flag) 3600 =
        ProcResult.completed rc out err →
      (((∃ m, WhisperXRunner.run r fs proc audio_path language flag =
          Except.error (RunError.executionErr m)) ↔ rc ≠ 0) ∧
       (rc ≠ 0 → WhisperXRunner.run r fs proc audio_path language flag =
          Except.error
            (RunError.executionErr ("WhisperX error: " ++ err))))) ∧
    (∀ out err, validate_audio fs audio_path = true →
      proc (whisperxCmd r audio_path language flag) 3600 =
        ProcResult.completed 0 out err →
      (WhisperXRunner.run r fs proc audio_path language flag =
          Except.error (RunError.outputMissing ("Output file not generated: "
            ++ whisperxOutputFile audio_path)) ↔
        fs.jsonAt (whisperxOutputFile audio_path) = none)) ∧
    ((∃ m, TimestampedRunner.run r fs proc audio_path language flag =
        Except.error (RunError.invalidInput m)) ↔
      validate_audio fs audio_path = false) ∧
    (∀ rc out err, validate_audio fs audio_path = true →
      proc (timestampedCmd r audio_path language flag) 3600 =
        ProcResult.completed rc out err →
      (((∃ m, TimestampedRunner.run r fs proc audio_path language flag =
          Except.error (RunError.executionErr m)) ↔ rc ≠ 0) ∧
       (rc ≠ 0 → TimestampedRunner.run r fs proc audio_path language flag =
          Except.error
            (RunError.executionErr ("whisper-timestamped error: " ++ err))))) ∧
    (∀ out err, validate_audio fs audio_path = true →
      proc (timestampedCmd r audio_path language flag) 3600 =
        ProcResult.completed 0 out err →
      (TimestampedRunner.run r fs proc audio_path language flag =
          Except.error (RunError.outputMissing ("Output file not generated: "
            ++ timestampedOutputFile audio_path)) ↔
        fs.jsonAt (timestampedOutputFile audio_path) = none)) :=
  ⟨wxInvalidIff r fs proc audio_path language flag,
   fun rc out err hv hp => wxExecIff r fs proc audio_path language flag
     rc out err hv hp,
   fun out err hv hp => wxMissingIff r fs proc audio_path language flag
     out err hv hp,
   tsInvalidIff r fs proc audio_path language flag,
   fun rc out err hv hp => tsExecIff r fs proc audio_path language flag
     rc out err hv hp,
   fun out err hv hp => tsMissingIff r fs proc audio_path language flag
     out err hv hp⟩

/-- A filesystem with no files at all. -/
def emptyFs : FileSys := ⟨fun _ => none, fun _ => none⟩

/-- A subprocess collaborator that exits non-zero with diagnostics. -/
def failingProc : Subproc :=
  fun _ _ => ProcResult.completed 1 "" "model load failed"

/-- A subprocess collaborator that exits zero having written nothing. -/
def cleanProc : Subproc := fun _ _ => ProcResult.completed 0 "" ""

/-- Witness for C6: a missing file yields the invalid-input error, a
non-zero exit yields the execution error with the stderr text, and a clean
exit with no output file yields the output-missing error. -/
theorem runner_error_taxonomy_witness :
    (∃ m, WhisperXRunner.run ⟨EngineKind.whisperx, "base", "cuda"⟩ emptyFs
        cleanProc "/tmp/uploads/a.wav" none false =
        Except.error (RunError.invalidInput m)) ∧
    WhisperXRunner.run ⟨EngineKind.whisperx, "base", "cuda"⟩ mockSampleFs
        failingProc "/tmp/uploads/test.wav" none false =
      Except.error
        (RunError.executionErr ("WhisperX error: " ++ "model load failed")) ∧
    WhisperXRunner.run ⟨EngineKind.whisperx, "base", "cuda"⟩ mockSampleFs
        cleanProc "/tmp/uploads/test.wav" none false =
      Except.error (RunError.outputMissing ("Output file not generated: "
        ++ whisperxOutputFile "/tmp/uploads/test.wav")) :=
  ⟨(runner_error_taxonomy ⟨EngineKind.whisperx, "base", "cuda"⟩ emptyFs
      cleanProc "/tmp/uploads/a.wav" none false).1.mpr rfl,
   ((runner_error_taxonomy ⟨EngineKind.whisperx, "base", "cuda"⟩ mockSampleFs
      failingProc "/tmp/uploads/test.wav" none false).2.1 1 ""
        "model load failed" (by decide) rfl).2 (by decide),
   ((runner_error_taxonomy ⟨EngineKind.whisperx, "base", "cuda"⟩ mockSampleFs
      cleanProc "/tmp/uploads/test.wav" none false).2.2.1 "" ""
        (by decide) rfl).mpr rfl⟩

/-- Computable check that a list of rationals is non-decreasing. -/
def ratsNondecreasing : List ℚ → Bool
  | [] => true
  | [_] => true
  | a :: b :: rest => decide (a ≤ b) && ratsNondecreasing (b :: rest)

/-- The spec invariant on a result: segment start times non-decreasing
across the ordered sequence. -/
def startsNondecreasing (res : TranscriptionResult) : Prop :=
  ratsNondecreasing (res.segments.map TranscriptionSegment.start) = true

/-- An engine output whose segments arrive with decreasing start times. -/
def outOfOrderRaw : RawOutput :=
  ⟨some "x", some [⟨some 0, some 2, some 3, some "b", none⟩,
                   ⟨some 1, some 1, some 2, some "a", none⟩], some "en"⟩

/-- A filesystem where the uploaded file exists and the adapter's
conventional output path holds the out-of-order engine output. -/
def outOfOrderFs : FileSys :=
  ⟨fun p => if p = "/tmp/uploads/audio.wav" then some 4 else none,
   fun p => if p = "/tmp/whisperx_output/audio.json" then some outOfOrderRaw
            else none⟩

/-- C8 counterexample: the adapters preserve the source segment order
without enforcing the invariant, so a run over an engine output whose
segments are out of order produces a TranscriptionResult whose start times
decrease. -/
theorem segment_order_cex :
    WhisperXRunner.run ⟨EngineKind.whisperx, "base", "cuda"⟩ outOfOrderFs
        cleanProc "/tmp/uploads/audio.wav" none false =
      Except.ok (WhisperXRunner.normalize outOfOrderRaw) ∧
    ¬ startsNondecreasing (WhisperXRunner.normalize outOfOrderRaw) := by
  constructor
  · rfl
  · unfold startsNondecreasing
    decide

/-- C8 amended: each production adapter preserves the source's segment
order, so its result satisfies the non-decreasing-starts invariant whenever
the source segments (with absent starts defaulting to 0) already do; the
invariant is unconditional only for the test adapter, whose every
successful result satisfies it. -/
theorem segment_order_spec :
    (∀ out : RawOutput,
      ratsNondecreasing
        ((out.segments.getD []).map (fun s => s.start.getD 0)) = true →
      startsNondecreasing (WhisperXRunner.normalize out) ∧
      startsNondecreasing (TimestampedRunner.normalize out)) ∧
    (∀ (fs : FileSys) (audio_path : String) (language : Option String)
        (res : TranscriptionResult),
      MockWhisperRunner.run fs audio_path language = Except.ok res →
      startsNondecreasing res) := by
  constructor
  · intro out h
    constructor
    · have e : (WhisperXRunner.normalize out).segments =
          (out.segments.getD []).map WhisperXRunner.normalizeSegment := rfl
      unfold startsNondecreasing
      rw [e, List.map_map]
      exact h
    · have e : (TimestampedRunner.normalize out).segments =
          (out.segments.getD []).map TimestampedRunner.normalizeSegment := rfl
      unfold startsNondecreasing
      rw [e, List.map_map]
      exact h
  · intro fs audio_path language res hres
    by_cases hv : validate_audio fs audio_path = true
    · unfold MockWhisperRunner.run at hres
      rw [hv] at hres
      rw [if_neg (by simp)] at hres
      cases hres
      simp only [startsNondecreasing, ratsNondecreasing, List.map_cons,
        List.map_nil, Bool.and_eq_true, decide_eq_true_eq]
      norm_num
    · simp only [Bool.not_eq_true] at hv
      simp [MockWhisperRunner.run, hv] at hres

/-- An engine output with two segments in non-decreasing start order. -/
def orderedRaw : RawOutput :=
  ⟨none, some [⟨some 0, some 0, some 1, some "a", none⟩,
               ⟨some 1, some 1, some 2, some "b", none⟩], none⟩

/-- The result the mock adapter computes on the sample filesystem. -/
def mockSampleRes : TranscriptionResult :=
  (MockWhisperRunner.run mockSampleFs "/tmp/uploads/test.wav" none).toOption.getD
    ⟨"", [], "", ""⟩

/-- Witness for C8: an ordered source stays ordered through normalization,
and a concrete mock result satisfies the invariant. -/
theorem segment_order_spec_witness :
    (ratsNondecreasing
      ((orderedRaw.segments.getD []).map (fun s => s.start.getD 0)) = true ∧
     startsNondecreasing (WhisperXRunner.normalize orderedRaw)) ∧
    (MockWhisperRunner.run mockSampleFs "/tmp/uploads/test.wav" none =
        Except.ok mockSampleRes ∧
     startsNondecreasing mockSampleRes) :=
  ⟨⟨by decide, (segment_order_spec.1 orderedRaw (by decide)).1⟩,
   ⟨rfl, segment_order_spec.2 mockSampleFs "/tmp/uploads/test.wav" none
      mockSampleRes rfl⟩⟩

end WhisperUniApi
